import Mathlib

/-!
Shallow embedding of `src/src/components/Scanner.jsx` (the single source file
of the zebra-scanner repository).

The component is a React function component whose whole behaviour lives in a
handful of `useState` fields and event handlers.  We embed the state as a
structure and each handler as a pure state-transformer.  JavaScript
truthiness on the nullable fields (`scanStartTime`, `selectedDeviceId`) and
on strings (`buffer`, `text`, `scannedData`, the empty string is falsy) is
modelled explicitly.

Timestamps are natural numbers (milliseconds, as returned by `Date.now()`).
The source stores the elapsed time formatted for display as
`((Date.now() - scanStartTime) / 1000).toFixed(2)`; the formatting to a
decimal-seconds string is pure rendering, so `scanTime` here holds the
underlying elapsed duration `now - scanStartTime` in milliseconds
(`none` when the source holds `null`).
-/

/-- A platform media device as returned by `navigator.mediaDevices.enumerateDevices()`:
`{deviceId, kind, label}`. -/
structure MediaDeviceInfo where
  deviceId : String
  kind : String
  label : String
  deriving Repr, DecidableEq

/-- The component state: one field per `useState` hook of `Scanner()`
(`src/src/components/Scanner.jsx`, lines 9-23).  `scannerKey` is the remount
counter; `enumerating` is the refresh-in-progress flag. -/
structure ScannerState where
  text : String
  scannedData : String
  scanStartTime : Option Nat
  scanTime : Option Nat
  buffer : String
  devices : List MediaDeviceInfo
  selectedDeviceId : Option String
  scanning : Bool
  scannerKey : Nat
  enumerating : Bool
  deriving Repr, DecidableEq

/-- The initial state set up by the `useState` initialisers. -/
def initState : ScannerState :=
  { text := ""
    scannedData := ""
    scanStartTime := none
    scanTime := none
    buffer := ""
    devices := []
    selectedDeviceId := none
    scanning := false
    scannerKey := 0
    enumerating := false }

/-- JavaScript truthiness of a nullable number (`null` and `0` are falsy). -/
def natTruthy : Option Nat → Bool
  | none => false
  | some n => n != 0

/-- JavaScript truthiness of a nullable string (`null` and `""` are falsy). -/
def strTruthy : Option String → Bool
  | none => false
  | some s => s != ""

/-- The global `keydown` handler `onKey` (lines 27-42).  `focused` is the test
`document.activeElement === inputRef.current`; `key` is `e.key`; `now` is the
value of `Date.now()` at the flush.  On `Enter` with a truthy buffer it stores
the buffer as the scanned value, clears the buffer, closes the camera, and, if
a truthy start time is recorded, stores the elapsed time; any single-character
key appends to the buffer. -/
def onKey (focused : Bool) (key : String) (now : Nat) (s : ScannerState) :
    ScannerState :=
  if focused then s
  else if key == "Enter" then
    if s.buffer != "" then
      { s with
        scannedData := s.buffer
        buffer := ""
        scanning := false
        scanTime :=
          if natTruthy s.scanStartTime then some (now - s.scanStartTime.getD 0)
          else s.scanTime }
    else s
  else if key.length == 1 then
    { s with buffer := s.buffer ++ key }
  else s

/-- `enumerateVideoDevices` (lines 61-82).  `allDevices` is what the platform's
`enumerateDevices()` resolves to.  It filters the video inputs, stores them,
auto-selects the first device when the selection is falsy, and falls back to
the first remaining device (or `null`) when the selected id disappeared.  The
`finally` block leaves `enumerating` at `false`. -/
def enumerateVideoDevices (allDevices : List MediaDeviceInfo)
    (s : ScannerState) : ScannerState :=
  let videoInputs := allDevices.filter (fun d => d.kind == "videoinput")
  let sel :=
    if !strTruthy s.selectedDeviceId && videoInputs.length != 0 then
      some (videoInputs.headD ⟨"", "", ""⟩).deviceId
    else if strTruthy s.selectedDeviceId &&
        !videoInputs.any (fun d => d.deviceId == s.selectedDeviceId.getD "") then
      (match videoInputs.head? with
       | some d => some d.deviceId
       | none => none)
    else s.selectedDeviceId
  { s with
    devices := videoInputs
    selectedDeviceId := sel
    enumerating := false }

/-- `startScanning` (lines 115-127).  `permissionOk` is whether
`ensureCameraPermission()` (lines 48-59) resolves: on rejection the `catch`
block is a no-op, so the state is returned unchanged and no error escapes.  On
success it re-enumerates, clears the previous result and elapsed time, records
the start timestamp, activates scanning and bumps the remount key. -/
def startScanning (permissionOk : Bool) (allDevices : List MediaDeviceInfo)
    (now : Nat) (s : ScannerState) : ScannerState :=
  if !permissionOk then s
  else
    let s1 := enumerateVideoDevices allDevices s
    { s1 with
      scannedData := ""
      scanTime := none
      scanStartTime := some now
      scanning := true
      scannerKey := s1.scannerKey + 1 }

/-- `cancelScanning` (lines 129-133): stops scanning and clears the start
timestamp and the stored elapsed time.  Nothing else is touched. -/
def cancelScanning (s : ScannerState) : ScannerState :=
  { s with scanning := false, scanStartTime := none, scanTime := none }

/-- `handleScanComplete` (lines 135-142), the decoder completion callback.  A
falsy (empty) payload returns early; otherwise the decoded value is stored,
scanning stops, and, if a truthy start time is recorded, the elapsed time is
stored.  Note: there is no guard against the session having been cancelled. -/
def handleScanComplete (data : String) (now : Nat) (s : ScannerState) :
    ScannerState :=
  if data == "" then s
  else
    { s with
      scannedData := data
      scanning := false
      scanTime :=
        if natTruthy s.scanStartTime then some (now - s.scanStartTime.getD 0)
        else s.scanTime }

/-- The match evaluator (line 144):
`const isMatch = text && scannedData && text === scannedData;`
coerced to a boolean. -/
def isMatch (text scannedData : String) : Bool :=
  text != "" && (scannedData != "" && text == scannedData)

/-- The UI events that drive the component: a global key event, a device
(re-)enumeration (mount, refresh button, debounced `devicechange`), the Start
Scan button, the Cancel Scan button, a decoder completion callback, typing in
the generator text field, and picking a device in the select. -/
inductive Event where
  | key (focused : Bool) (k : String) (now : Nat)
  | enumerate (allDevices : List MediaDeviceInfo)
  | startScan (permissionOk : Bool) (allDevices : List MediaDeviceInfo) (now : Nat)
  | cancel
  | decode (data : String) (now : Nat)
  | setTextTo (t : String)
  | selectDevice (id : String)
  deriving Repr

/-- One step of the component: dispatches an event to the handler the source
wires it to.  `setTextTo` is the text input's `onChange`; `selectDevice` is the
device select's `onChange`, after which the remount effect (lines 108-112)
bumps `scannerKey` when a scan is active. -/
def step (e : Event) (s : ScannerState) : ScannerState :=
  match e with
  | .key focused k now => onKey focused k now s
  | .enumerate allDevices => enumerateVideoDevices allDevices s
  | .startScan ok allDevices now => startScanning ok allDevices now s
  | .cancel => cancelScanning s
  | .decode data now => handleScanComplete data now s
  | .setTextTo t => { s with text := t }
  | .selectDevice id =>
      let s1 := { s with selectedDeviceId := some id }
      if s1.scanning then { s1 with scannerKey := s1.scannerKey + 1 } else s1

/-- Run a sequence of events from a state. -/
def run (evs : List Event) (s : ScannerState) : ScannerState :=
  evs.foldl (fun st e => step e st) s

/-! ## Invariant: an elapsed time is only ever stored together with a value -/

/-- The one direction of "never partially populated" the code does maintain:
whenever an elapsed time is stored, a scanned value is present. -/
def TimedHasValue (s : ScannerState) : Prop :=
  s.scanTime.isSome → s.scannedData ≠ ""

theorem timedHasValue_step (e : Event) (s : ScannerState)
    (h : TimedHasValue s) : TimedHasValue (step e s) := by
  cases e <;>
    simp only [step, onKey, enumerateVideoDevices, startScanning, cancelScanning,
      handleScanComplete, TimedHasValue] at h ⊢ <;>
    (repeat' split) <;> simp_all

theorem timedHasValue_run (evs : List Event) (s : ScannerState)
    (h : TimedHasValue s) : TimedHasValue (run evs s) := by
  induction evs generalizing s with
  | nil => exact h
  | cons e evs ih => exact ih (step e s) (timedHasValue_step e s h)

/-! ## Claim theorems -/

/-- C1: with the text field unfocused, an Enter arriving while the key buffer
is non-empty stores the buffered characters in arrival order as the scanned
value, clears the buffer, closes any camera session (the session is Completed:
not scanning, result present), and — when a session start timestamp is
recorded (`scanStartTime = some t` with `t` nonzero, matching the code's
truthiness test; `Date.now()` is always positive) — stores the elapsed time
`now - t`; and every printable single-character key event appends that
character to the buffer. -/
theorem onKey_flush_and_append (s : ScannerState) (k : String) (now t : Nat) :
    (s.buffer ≠ "" →
      (onKey false "Enter" now s).scannedData = s.buffer ∧
      (onKey false "Enter" now s).buffer = "" ∧
      (onKey false "Enter" now s).scanning = false ∧
      (s.scanStartTime = some t → 0 < t →
        (onKey false "Enter" now s).scanTime = some (now - t))) ∧
    (k.length = 1 → (onKey false k now s).buffer = s.buffer ++ k) := by
  constructor
  · intro hbuf
    have hb : (s.buffer != "") = true := by simpa using hbuf
    have hflush : onKey false "Enter" now s =
        { s with
          scannedData := s.buffer
          buffer := ""
          scanning := false
          scanTime :=
            if natTruthy s.scanStartTime then some (now - s.scanStartTime.getD 0)
            else s.scanTime } := by
      simp [onKey, hb]
    rw [hflush]
    refine ⟨rfl, rfl, rfl, ?_⟩
    intro hstart ht
    simp [hstart, natTruthy, Nat.pos_iff_ne_zero.mp ht]
  · intro hk
    have hne : k ≠ "Enter" := by
      intro h; rw [h] at hk; exact absurd hk (by decide)
    simp [onKey, hne, hk]

theorem onKey_flush_and_append_witness :
    (({ initState with buffer := "HELLO", scanStartTime := some 5 } :
        ScannerState).buffer ≠ "" ∧
      (onKey false "Enter" 12
        { initState with buffer := "HELLO", scanStartTime := some 5 }).scannedData
        = "HELLO" ∧
      (onKey false "Enter" 12
        { initState with buffer := "HELLO", scanStartTime := some 5 }).scanTime
        = some 7) ∧
    (onKey false "H" 12
      { initState with buffer := "HELLO", scanStartTime := some 5 }).buffer
      = "HELLOH" := by
  have h := onKey_flush_and_append
    { initState with buffer := "HELLO", scanStartTime := some 5 } "H" 12 5
  have h1 := h.1 (by decide)
  exact ⟨⟨by decide, h1.1, h1.2.2.2 rfl (by decide)⟩, h.2 (by decide)⟩

/-- C2: demonstration that a decoder completion callback arriving after
`cancelScanning` is NOT discarded.  Starting a camera session at time 5,
cancelling it, then delivering a late decode of `"WORLD"` at time 10: after
the cancel no value is stored and scanning is off, yet the late callback
overwrites the stored scanned value with `"WORLD"` — `handleScanComplete`
has no check against the cancelled session state (it only leaves the elapsed
time alone because cancel cleared the start timestamp). -/
theorem decode_after_cancel_is_applied :
    (run [Event.startScan true [] 5, Event.cancel] initState).scanning = false ∧
    (run [Event.startScan true [] 5, Event.cancel] initState).scannedData = "" ∧
    (run [Event.startScan true [] 5, Event.cancel,
      Event.decode "WORLD" 10] initState).scannedData = "WORLD" ∧
    (run [Event.startScan true [] 5, Event.cancel,
      Event.decode "WORLD" 10] initState).scanTime = none := by
  refine ⟨rfl, rfl, rfl, rfl⟩

/-- C3 counterexample: the "never partially populated" invariant fails.  From
the initial state, the key events `'A'` then `Enter` (text field unfocused,
no session ever started) reach a state whose scanned value is present
(`"A"`) while no elapsed time is stored. -/
theorem result_without_elapsed_reachable :
    (run [Event.key false "A" 0, Event.key false "Enter" 1] initState).scannedData
      = "A" ∧
    (run [Event.key false "A" 0, Event.key false "Enter" 1] initState).scanTime
      = none := by
  refine ⟨rfl, rfl⟩

/-- C3 amended: after any sequence of operations from the initial state, the
elapsed time is never present without the scanned value being present; the
converse can fail (a keyboard flush with no recorded session start stores the
value but no elapsed time, and cancel clears the elapsed time while keeping
the value). -/
theorem run_scanTime_implies_scannedData (evs : List Event)
    (h : (run evs initState).scanTime.isSome = true) :
    (run evs initState).scannedData ≠ "" :=
  timedHasValue_run evs initState (by intro hs; simp [initState, run] at hs) h

theorem run_scanTime_implies_scannedData_witness :
    (run [Event.startScan true [] 5, Event.decode "X" 9] initState).scanTime.isSome
      = true ∧
    (run [Event.startScan true [] 5, Event.decode "X" 9] initState).scannedData
      ≠ "" :=
  ⟨rfl, run_scanTime_implies_scannedData
    [Event.startScan true [] 5, Event.decode "X" 9] rfl⟩

/-- C4: while the designated text input has focus
(`document.activeElement === inputRef.current`), every key event — the
terminator included — leaves the whole state unchanged: buffer, scanned
value, elapsed time and session status are all untouched. -/
theorem onKey_focused_noop (s : ScannerState) (k : String) (now : Nat) :
    onKey true k now s = s := by
  simp [onKey]

/-- C5: device-fallback behaviour of `enumerateVideoDevices`.  Writing `D` for
the filtered video-input list: the devices field becomes `D`; with no current
selection (a JS-falsy `selectedDeviceId`) and `D` non-empty, the selection
becomes the first element of `D`; with a (truthy) selection whose id is absent
from a non-empty `D`, the selection becomes the first element of `D`; with a
truthy selection absent from an empty `D`, the selection becomes `none`; and
with no selection and an empty `D` no selection appears — in particular an
empty enumeration result is handled without failing (the function is total
and simply stores the empty list). -/
theorem enumerateVideoDevices_selection (s : ScannerState)
    (allDevices : List MediaDeviceInfo) :
    (enumerateVideoDevices allDevices s).devices
      = allDevices.filter (fun d => d.kind == "videoinput") ∧
    (strTruthy s.selectedDeviceId = false →
      allDevices.filter (fun d => d.kind == "videoinput") ≠ [] →
      (enumerateVideoDevices allDevices s).selectedDeviceId
        = some ((allDevices.filter (fun d => d.kind == "videoinput")).headD
            ⟨"", "", ""⟩).deviceId) ∧
    (∀ v, s.selectedDeviceId = some v → v ≠ "" →
      (∀ d ∈ allDevices.filter (fun d => d.kind == "videoinput"),
        d.deviceId ≠ v) →
      allDevices.filter (fun d => d.kind == "videoinput") ≠ [] →
      (enumerateVideoDevices allDevices s).selectedDeviceId
        = some ((allDevices.filter (fun d => d.kind == "videoinput")).headD
            ⟨"", "", ""⟩).deviceId) ∧
    (∀ v, s.selectedDeviceId = some v → v ≠ "" →
      allDevices.filter (fun d => d.kind == "videoinput") = [] →
      (enumerateVideoDevices allDevices s).selectedDeviceId = none) ∧
    (strTruthy s.selectedDeviceId = false →
      allDevices.filter (fun d => d.kind == "videoinput") = [] →
      strTruthy (enumerateVideoDevices allDevices s).selectedDeviceId
        = false) := by
  refine ⟨by simp [enumerateVideoDevices], ?_, ?_, ?_, ?_⟩
  · intro hsel hD
    simp [enumerateVideoDevices, hsel, hD]
  · intro v hv hv0 habs hD
    have ht : strTruthy s.selectedDeviceId = true := by
      rw [hv]; simp [strTruthy, hv0]
    have hany : ((allDevices.filter (fun d => d.kind == "videoinput")).any
        (fun d => d.deviceId == s.selectedDeviceId.getD "")) = false := by
      rw [List.any_eq_false]
      intro d hd
      rw [hv]
      simpa using habs d hd
    cases hhead : (allDevices.filter (fun d => d.kind == "videoinput")).head? with
    | none => exact absurd (List.head?_eq_none_iff.mp hhead) hD
    | some d =>
      have hmain : (enumerateVideoDevices allDevices s).selectedDeviceId
          = some d.deviceId := by
        simp [enumerateVideoDevices, ht, hany, hhead]
      rw [hmain, List.headD_eq_head?, hhead]
      rfl
  · intro v hv hv0 hD
    have ht : strTruthy s.selectedDeviceId = true := by
      rw [hv]; simp [strTruthy, hv0]
    simp [enumerateVideoDevices, ht, hD]
  · intro hsel hD
    simp [enumerateVideoDevices, hsel, hD]

theorem enumerateVideoDevices_selection_witness :
    (enumerateVideoDevices
      [⟨"camA", "videoinput", "A"⟩, ⟨"mic", "audioinput", "M"⟩,
       ⟨"camB", "videoinput", "B"⟩] initState).selectedDeviceId = some "camA" ∧
    (enumerateVideoDevices
      [⟨"camA", "videoinput", "A"⟩, ⟨"mic", "audioinput", "M"⟩,
       ⟨"camB", "videoinput", "B"⟩]
      { initState with selectedDeviceId := some "gone" }).selectedDeviceId
      = some "camA" ∧
    (enumerateVideoDevices []
      { initState with selectedDeviceId := some "gone" }).selectedDeviceId
      = none := by
  refine ⟨?_, ?_, ?_⟩
  · exact (enumerateVideoDevices_selection initState
      [⟨"camA", "videoinput", "A"⟩, ⟨"mic", "audioinput", "M"⟩,
       ⟨"camB", "videoinput", "B"⟩]).2.1 rfl (by decide)
  · exact (enumerateVideoDevices_selection
      { initState with selectedDeviceId := some "gone" }
      [⟨"camA", "videoinput", "A"⟩, ⟨"mic", "audioinput", "M"⟩,
       ⟨"camB", "videoinput", "B"⟩]).2.2.1 "gone" rfl
      (by decide) (by decide) (by decide)
  · exact (enumerateVideoDevices_selection
      { initState with selectedDeviceId := some "gone" } []).2.2.2.1 "gone" rfl
      (by decide) rfl

/-- C6: the match evaluator is true exactly when the generated text is
non-empty, a scanned value is present (non-empty, the source's encoding of
"no result"), and the two strings are equal — Lean string equality is
decidable codepoint-for-codepoint equality, matching JavaScript `===` on the
stored values.  `isMatch` is a pure function of its two arguments. -/
theorem isMatch_iff (text scannedData : String) :
    isMatch text scannedData = true ↔
      text ≠ "" ∧ scannedData ≠ "" ∧ text = scannedData := by
  simp [isMatch]

/-- C7: with the text field unfocused, an Enter arriving while the key buffer
is empty is a complete no-op — the state (in particular the scanned value,
the buffer and the scanning status) is returned unchanged, and the embedding
is a total function: nothing is reported as an error. -/
theorem onKey_enter_empty_buffer_noop (s : ScannerState) (now : Nat)
    (h : s.buffer = "") : onKey false "Enter" now s = s := by
  simp [onKey, h]

theorem onKey_enter_empty_buffer_noop_witness :
    initState.buffer = "" ∧ onKey false "Enter" 3 initState = initState :=
  ⟨rfl, onKey_enter_empty_buffer_noop initState 3 rfl⟩

/-- C8: when camera acquisition fails at start (`ensureCameraPermission`
rejects, so `permissionOk = false`), `startScanning` is a no-op: starting
from an Idle state the session stays Idle (not Active), the previously
stored scanned value and elapsed time are untouched, and no start timestamp
is recorded; the `catch` block swallows the rejection, so the embedding is a
total function and no error propagates. -/
theorem startScanning_permission_failure (s : ScannerState)
    (allDevices : List MediaDeviceInfo) (now : Nat)
    (h : s.scanning = false) :
    startScanning false allDevices now s = s ∧
    (startScanning false allDevices now s).scanning = false ∧
    (startScanning false allDevices now s).scannedData = s.scannedData ∧
    (startScanning false allDevices now s).scanTime = s.scanTime ∧
    (startScanning false allDevices now s).scanStartTime = s.scanStartTime := by
  have hs : startScanning false allDevices now s = s := by
    simp [startScanning]
  exact ⟨hs, by rw [hs]; exact h, by rw [hs], by rw [hs], by rw [hs]⟩

theorem startScanning_permission_failure_witness :
    initState.scanning = false ∧
    startScanning false [] 7 initState = initState :=
  ⟨rfl, (startScanning_permission_failure initState [] 7 rfl).1⟩

/-- C9: the keydown handler is attached for the whole mounted lifetime and
has no mode guard, so the keyboard source stays live while a camera session
is Active: a printable key still appends to the buffer, and an Enter flush
with a non-empty buffer stores the buffered value and also sets
`scanning := false`, stopping the camera session — after a successful
keyboard flush no camera session remains active. -/
theorem keyboard_live_while_camera_active (s : ScannerState) (k : String)
    (now : Nat) (hactive : s.scanning = true) :
    (k.length = 1 → (onKey false k now s).buffer = s.buffer ++ k) ∧
    (s.buffer ≠ "" →
      (onKey false "Enter" now s).scanning = false ∧
      (onKey false "Enter" now s).scannedData = s.buffer) := by
  constructor
  · intro hk
    have hne : k ≠ "Enter" := by
      intro h; rw [h] at hk; exact absurd hk (by decide)
    simp [onKey, hne, hk]
  · intro hbuf
    have hb : (s.buffer != "") = true := by simpa using hbuf
    constructor <;> simp [onKey, hb]

theorem keyboard_live_while_camera_active_witness :
    ({ initState with scanning := true, buffer := "HELL" } :
        ScannerState).scanning = true ∧
    (onKey false "O" 9
      { initState with scanning := true, buffer := "HELL" }).buffer = "HELLO" ∧
    ({ initState with scanning := true, buffer := "HELL" } :
        ScannerState).buffer ≠ "" ∧
    (onKey false "Enter" 9
      { initState with scanning := true, buffer := "HELL" }).scanning = false :=
  ⟨rfl,
    (keyboard_live_while_camera_active
      { initState with scanning := true, buffer := "HELL" } "O" 9 rfl).1 rfl,
    by decide,
    ((keyboard_live_while_camera_active
      { initState with scanning := true, buffer := "HELL" } "O" 9 rfl).2
      (by decide)).1⟩

/-- C10 counterexample: `cancelScanning` does modify state beyond keeping the
value and clearing the two time fields — it deactivates the session.  On the
reachable state produced by starting a camera scan, `scanning` is `true`
before the cancel and `false` after it, so "no other state is modified" fails
for the `scanning` flag. -/
theorem cancelScanning_changes_scanning :
    (run [Event.startScan true [] 5] initState).scanning = true ∧
    (cancelScanning (run [Event.startScan true [] 5] initState)).scanning
      = false := by
  refine ⟨rfl, rfl⟩

/-- C10 amended: `cancelScanning` leaves the previously produced scanned
value unchanged, clears both the start timestamp and the stored elapsed time
to `none`, and additionally deactivates the session (`scanning` becomes
`false`); every other field — generated text, key buffer, device list,
device selection, remount key, enumerating flag — is unchanged. -/
theorem cancelScanning_frame (s : ScannerState) :
    (cancelScanning s).scannedData = s.scannedData ∧
    (cancelScanning s).scanStartTime = none ∧
    (cancelScanning s).scanTime = none ∧
    (cancelScanning s).scanning = false ∧
    (cancelScanning s).text = s.text ∧
    (cancelScanning s).buffer = s.buffer ∧
    (cancelScanning s).devices = s.devices ∧
    (cancelScanning s).selectedDeviceId = s.selectedDeviceId ∧
    (cancelScanning s).scannerKey = s.scannerKey ∧
    (cancelScanning s).enumerating = s.enumerating := by
  refine ⟨rfl, rfl, rfl, rfl, rfl, rfl, rfl, rfl, rfl, rfl⟩
